import Mathlib

/-!
Shallow embedding of the SimpleMicroservices FastAPI application
(`src/main.py`, `src/models/club.py`, `src/models/player.py`).

Python dictionaries (`persons`, `addresses`, `clubs`, `players` in `main.py`,
and the field dictionaries produced by pydantic's `model_dump`) are embedded
as insertion-ordered association lists.  `datetime.utcnow()` is embedded as an
explicit `now : Timestamp` argument to every operation that constructs fresh
timestamps.  UUIDs, datetimes and dates are identity-compared values, embedded
as `Nat` (for UUID/datetime) and `String` (for the `YYYY-MM-DD` form of dates).

`models/person.py` and `models/address.py` are not part of the sources; the
record shapes of Person and Address are modelled from the spec (see the doc
comments on those structures).  All operation logic comes from `main.py`.
-/

abbrev UUID := Nat
abbrev Timestamp := Nat

/-- Failure taxonomy of the core operations (spec section 7).  `Conflict`,
`NotFound` and `InvalidReference` are the HTTPException branches of `main.py`;
`Validation` models a pydantic re-validation failure escaping a handler. -/
inductive Err where
  | Conflict
  | NotFound
  | InvalidReference
  | Validation
deriving DecidableEq, Repr

/-! Python-dict semantics over insertion-ordered association lists. -/

/-- Lookup (`d[k]` / `d.get(k)`): value of the first pair whose key is `k`. -/
def dget {κ α : Type} [DecidableEq κ] (k : κ) : List (κ × α) → Option α
  | [] => none
  | kv :: rest => if kv.1 = k then some kv.2 else dget k rest

/-- Membership test (`k in d`). -/
def dmem {κ α : Type} [DecidableEq κ] (k : κ) (l : List (κ × α)) : Bool :=
  (dget k l).isSome

/-- Assignment (`d[k] = v`): replace the value in place if the key is present,
append a new pair otherwise. -/
def dset {κ α : Type} [DecidableEq κ] (k : κ) (v : α) : List (κ × α) → List (κ × α)
  | [] => [(k, v)]
  | kv :: rest => if kv.1 = k then (k, v) :: rest else kv :: dset k v rest

/-- Deletion (`del d[k]`): drop the pair with key `k`. -/
def derase {κ α : Type} [DecidableEq κ] (k : κ) : List (κ × α) → List (κ × α)
  | [] => []
  | kv :: rest => if kv.1 = k then rest else kv :: derase k rest

/-- Value view (`d.values()`), in insertion order. -/
def dvalues {κ α : Type} (l : List (κ × α)) : List α :=
  l.map Prod.snd

/-- In-place merge (`d.update(u)`): assign every pair of `u`, in order. -/
def dupdate {κ α : Type} [DecidableEq κ] (d u : List (κ × α)) : List (κ × α) :=
  u.foldl (fun acc kv => dset kv.1 kv.2 acc) d

/-! Entity records, mirroring the pydantic models. -/

/-- `ClubRead` of `models/club.py`: id, city, name, country plus the
`created_at`/`updated_at` timestamps added by the Read shape. -/
structure ClubRead where
  id : UUID
  city : String
  name : String
  country : String
  created_at : Timestamp
  updated_at : Timestamp
deriving DecidableEq, Repr

/-- `ClubCreate` of `models/club.py`: after parsing, the payload always carries
an id (caller-supplied or generated by the `uuid4` default factory). -/
structure ClubCreate where
  id : UUID
  city : String
  name : String
  country : String
deriving DecidableEq, Repr

/-- `ClubUpdate` of `models/club.py`: every field is `Optional[str] = None`
with pydantic set-tracking.  The outer `Option` is the set/unset flag
(`exclude_unset`); the inner `Option` is the supplied value, so a field
explicitly set to null (`some none`) is representable — even though the
corresponding `ClubRead` fields are required strings, on which such a value
later fails re-validation. -/
structure ClubUpdate where
  city : Option (Option String)
  name : Option (Option String)
  country : Option (Option String)
deriving DecidableEq, Repr

/-- `PlayerRead` of `models/player.py`.  `birth_date` is the optional
`YYYY-MM-DD` date string; `club_id` is the optional weak reference to a Club. -/
structure PlayerRead where
  id : UUID
  first_name : String
  last_name : String
  position : String
  birth_date : Option String
  club_id : Option UUID
  created_at : Timestamp
  updated_at : Timestamp
deriving DecidableEq, Repr

/-- `PlayerCreate` of `models/player.py`. -/
structure PlayerCreate where
  id : UUID
  first_name : String
  last_name : String
  position : String
  birth_date : Option String
  club_id : Option UUID
deriving DecidableEq, Repr

/-- `PlayerUpdate` of `models/player.py`: every field is `Optional[...] = None`
with pydantic set-tracking.  The outer `Option` is the set/unset flag
(`exclude_unset`); the inner `Option` is the supplied value, so every field —
including `first_name`/`last_name`/`position`, which are required strings in
`PlayerRead` — can be explicitly set to null (`some none`).  Such a null for
a required field survives the dict merge and then fails re-validation. -/
structure PlayerUpdate where
  first_name : Option (Option String)
  last_name : Option (Option String)
  position : Option (Option String)
  birth_date : Option (Option String)
  club_id : Option (Option UUID)
deriving DecidableEq, Repr

/-- Modelled from the spec: `models/address.py` is not under `src/`.  The
Address fields (street, city, state/region, postal code, country) follow spec
section 3 and their use in `list_addresses`/`update_address` of `main.py`; the
Read shape adds the two timestamps per spec section 3. -/
structure AddressRead where
  id : UUID
  street : String
  city : String
  state : String
  postal_code : String
  country : String
  created_at : Timestamp
  updated_at : Timestamp
deriving DecidableEq, Repr

/-- Modelled from the spec: creation payload for Address (id present after
parsing, caller-supplied or generated). -/
structure AddressCreate where
  id : UUID
  street : String
  city : String
  state : String
  postal_code : String
  country : String
deriving DecidableEq, Repr

/-- Modelled from the spec: sparse update for Address; every field of the Read
shape is a required string, so a set field carries a string value. -/
structure AddressUpdate where
  street : Option String
  city : Option String
  state : Option String
  postal_code : Option String
  country : Option String
deriving DecidableEq, Repr

/-- Modelled from the spec: an Address value embedded in a Person (spec
section 3: embedded Addresses are values owned by the Person). -/
structure EmbeddedAddress where
  street : String
  city : String
  state : String
  postal_code : String
  country : String
deriving DecidableEq, Repr

/-- Modelled from the spec: `models/person.py` is not under `src/`.  Fields
follow spec section 3 (first name, last name, university identifier, email,
phone, optional birth date, embedded Address values) and their use in
`list_persons` of `main.py`; the Read shape adds the two timestamps. -/
structure PersonRead where
  id : UUID
  uni : String
  first_name : String
  last_name : String
  email : String
  phone : String
  birth_date : Option String
  addresses : List EmbeddedAddress
  created_at : Timestamp
  updated_at : Timestamp
deriving DecidableEq, Repr

/-- Modelled from the spec: creation payload for Person (id present after
parsing, caller-supplied or generated; spec section 3 permits caller-supplied
identifiers). -/
structure PersonCreate where
  id : UUID
  uni : String
  first_name : String
  last_name : String
  email : String
  phone : String
  birth_date : Option String
  addresses : List EmbeddedAddress
deriving DecidableEq, Repr

/-! Dynamic field dictionaries for the dict-based merge (`model_dump` /
`dict.update` / re-validation), used by the patch endpoints. -/

/-- Runtime value of one dumped field; constructors tag the Python runtime
types (str, UUID, datetime, date) plus the standalone `None`, which is what a
dumped dictionary actually holds for an absent optional value or an
explicitly supplied null. -/
inductive PyValue where
  | vStr (s : String)
  | vUuid (u : UUID)
  | vTime (t : Timestamp)
  | vDate (s : String)
  | vNone
deriving DecidableEq, Repr

/-- Dump an optional runtime value: `None` dumps as `None`, a present value
with its own tag. -/
def pyOpt {α : Type} (f : α → PyValue) : Option α → PyValue
  | some v => f v
  | none => PyValue.vNone

/-- Validation of a required `str` field: only a string is accepted. -/
def asStr : Option PyValue → Option String
  | some (PyValue.vStr s) => some s
  | _ => none

/-- Validation of a required `UUID` field. -/
def asUuid : Option PyValue → Option UUID
  | some (PyValue.vUuid u) => some u
  | _ => none

/-- Validation of a required `datetime` field. -/
def asTime : Option PyValue → Option Timestamp
  | some (PyValue.vTime t) => some t
  | _ => none

/-- Validation of an `Optional[date]` field: a date or `None`. -/
def asOptDate : Option PyValue → Option (Option String)
  | some (PyValue.vDate s) => some (some s)
  | some PyValue.vNone => some none
  | _ => none

/-- Validation of an `Optional[UUID]` field: a UUID or `None`. -/
def asOptUuid : Option PyValue → Option (Option UUID)
  | some (PyValue.vUuid u) => some (some u)
  | some PyValue.vNone => some none
  | _ => none

/-- One field of an `exclude_unset` dump: an unset field contributes nothing,
a field set to null contributes `None`, a field set to a value contributes
that value. -/
def dumpField {α : Type} (key : String) (f : α → PyValue) :
    Option (Option α) → List (String × PyValue)
  | none => []
  | some none => [(key, PyValue.vNone)]
  | some (some v) => [(key, f v)]

/-- `club.model_dump()` for a stored `ClubRead`, in field declaration order. -/
def clubDump (c : ClubRead) : List (String × PyValue) :=
  [("id", PyValue.vUuid c.id), ("city", PyValue.vStr c.city),
   ("name", PyValue.vStr c.name), ("country", PyValue.vStr c.country),
   ("created_at", PyValue.vTime c.created_at),
   ("updated_at", PyValue.vTime c.updated_at)]

/-- `update.model_dump(exclude_unset=True)` for a `ClubUpdate`: only the set
fields appear, an explicitly supplied null as `None`. -/
def clubUpdateDump (u : ClubUpdate) : List (String × PyValue) :=
  dumpField "city" PyValue.vStr u.city
  ++ dumpField "name" PyValue.vStr u.name
  ++ dumpField "country" PyValue.vStr u.country

/-- `ClubRead(**stored)`: re-validate a field dictionary as a `ClubRead`;
every field must validate, otherwise the whole validation fails. -/
def clubParse (d : List (String × PyValue)) : Option ClubRead :=
  match asUuid (dget "id" d), asStr (dget "city" d), asStr (dget "name" d),
        asStr (dget "country" d), asTime (dget "created_at" d),
        asTime (dget "updated_at" d) with
  | some i, some city, some nm, some country, some ca, some ua =>
      some ⟨i, city, nm, country, ca, ua⟩
  | _, _, _, _, _, _ => none

/-- `player.model_dump()` for a stored `PlayerRead`. -/
def playerDump (p : PlayerRead) : List (String × PyValue) :=
  [("id", PyValue.vUuid p.id), ("first_name", PyValue.vStr p.first_name),
   ("last_name", PyValue.vStr p.last_name), ("position", PyValue.vStr p.position),
   ("birth_date", pyOpt PyValue.vDate p.birth_date),
   ("club_id", pyOpt PyValue.vUuid p.club_id),
   ("created_at", PyValue.vTime p.created_at),
   ("updated_at", PyValue.vTime p.updated_at)]

/-- `update.model_dump(exclude_unset=True)` for a `PlayerUpdate`: only the set
fields appear, an explicitly supplied null as `None`. -/
def playerUpdateDump (u : PlayerUpdate) : List (String × PyValue) :=
  dumpField "first_name" PyValue.vStr u.first_name
  ++ dumpField "last_name" PyValue.vStr u.last_name
  ++ dumpField "position" PyValue.vStr u.position
  ++ dumpField "birth_date" PyValue.vDate u.birth_date
  ++ dumpField "club_id" PyValue.vUuid u.club_id

/-- `PlayerRead(**stored)`: re-validate a field dictionary as a `PlayerRead`;
every field must validate, otherwise the whole validation fails. -/
def playerParse (d : List (String × PyValue)) : Option PlayerRead :=
  match asUuid (dget "id" d), asStr (dget "first_name" d), asStr (dget "last_name" d),
        asStr (dget "position" d), asOptDate (dget "birth_date" d),
        asOptUuid (dget "club_id" d), asTime (dget "created_at" d),
        asTime (dget "updated_at" d) with
  | some i, some fn, some ln, some pos, some bd, some cid, some ca, some ua =>
      some ⟨i, fn, ln, pos, bd, cid, ca, ua⟩
  | _, _, _, _, _, _, _, _ => none

/-- `address.model_dump()` for a stored `AddressRead`. -/
def addressDump (a : AddressRead) : List (String × PyValue) :=
  [("id", PyValue.vUuid a.id), ("street", PyValue.vStr a.street),
   ("city", PyValue.vStr a.city), ("state", PyValue.vStr a.state),
   ("postal_code", PyValue.vStr a.postal_code),
   ("country", PyValue.vStr a.country),
   ("created_at", PyValue.vTime a.created_at),
   ("updated_at", PyValue.vTime a.updated_at)]

/-- `update.model_dump(exclude_unset=True)` for an `AddressUpdate`. -/
def addressUpdateDump (u : AddressUpdate) : List (String × PyValue) :=
  (match u.street with | some v => [("street", PyValue.vStr v)] | none => [])
  ++ (match u.city with | some v => [("city", PyValue.vStr v)] | none => [])
  ++ (match u.state with | some v => [("state", PyValue.vStr v)] | none => [])
  ++ (match u.postal_code with | some v => [("postal_code", PyValue.vStr v)] | none => [])
  ++ (match u.country with | some v => [("country", PyValue.vStr v)] | none => [])

/-- `AddressRead(**stored)`: re-validate a field dictionary; every field must
validate, otherwise the whole validation fails. -/
def addressParse (d : List (String × PyValue)) : Option AddressRead :=
  match asUuid (dget "id" d), asStr (dget "street" d), asStr (dget "city" d),
        asStr (dget "state" d), asStr (dget "postal_code" d),
        asStr (dget "country" d), asTime (dget "created_at" d),
        asTime (dget "updated_at" d) with
  | some i, some street, some city, some sta, some pc, some country, some ca, some ua =>
      some ⟨i, street, city, sta, pc, country, ca, ua⟩
  | _, _, _, _, _, _, _, _ => none

/-! Application state: the four module-level dictionaries of `main.py`. -/

structure AppState where
  persons : List (UUID × PersonRead)
  addresses : List (UUID × AddressRead)
  clubs : List (UUID × ClubRead)
  players : List (UUID × PlayerRead)
deriving DecidableEq, Repr

def AppState.withPersons (st : AppState) (d : List (UUID × PersonRead)) : AppState :=
  ⟨d, st.addresses, st.clubs, st.players⟩

def AppState.withAddresses (st : AppState) (d : List (UUID × AddressRead)) : AppState :=
  ⟨st.persons, d, st.clubs, st.players⟩

def AppState.withClubs (st : AppState) (d : List (UUID × ClubRead)) : AppState :=
  ⟨st.persons, st.addresses, d, st.players⟩

def AppState.withPlayers (st : AppState) (d : List (UUID × PlayerRead)) : AppState :=
  ⟨st.persons, st.addresses, st.clubs, d⟩

/-! Endpoint handlers of `main.py`, in state-passing form. -/

/-- `create_address` (main.py): conflict check, then store the Read record
with fresh timestamps. -/
def create_address (st : AppState) (address : AddressCreate) (now : Timestamp) :
    Except Err AddressRead × AppState :=
  if dmem address.id st.addresses then (.error .Conflict, st)
  else
    let r : AddressRead :=
      ⟨address.id, address.street, address.city, address.state,
       address.postal_code, address.country, now, now⟩
    (.ok r, st.withAddresses (dset address.id r st.addresses))

/-- `update_address` (main.py): 404 if absent, then dict-based merge and
re-validation. -/
def update_address (st : AppState) (address_id : UUID) (update : AddressUpdate) :
    Except Err AddressRead × AppState :=
  match dget address_id st.addresses with
  | none => (.error .NotFound, st)
  | some stored =>
    match addressParse (dupdate (addressDump stored) (addressUpdateDump update)) with
    | none => (.error .Validation, st)
    | some r => (.ok r, st.withAddresses (dset address_id r st.addresses))

/-- `create_person` (main.py): stores the Read record with fresh timestamps.
Faithful to the source, there is no conflict check: an existing record under
the payload's id is silently overwritten. -/
def create_person (st : AppState) (person : PersonCreate) (now : Timestamp) :
    Except Err PersonRead × AppState :=
  let person_read : PersonRead :=
    ⟨person.id, person.uni, person.first_name, person.last_name, person.email,
     person.phone, person.birth_date, person.addresses, now, now⟩
  (.ok person_read, st.withPersons (dset person_read.id person_read st.persons))

/-- Optional filter application: one `if x is not None: results = [...]` stage
of the list endpoints. -/
def appf {α β : Type} (o : Option β) (t : β → α → Bool) (l : List α) : List α :=
  match o with
  | none => l
  | some v => l.filter (t v)

/-- `str(p.birth_date)` for an `Optional[date]`: Python renders `None` as the
string `"None"` and a date in its canonical form. -/
def pyStrOptDate (o : Option String) : String :=
  match o with
  | none => "None"
  | some s => s

/-- Query parameters of `list_persons`. -/
structure PersonFilters where
  uni : Option String
  first_name : Option String
  last_name : Option String
  email : Option String
  phone : Option String
  birth_date : Option String
  city : Option String
  country : Option String
deriving DecidableEq, Repr

/-- `list_persons` (main.py): sequential optional equality filters,
with the nested-address filters for city and country applied last. -/
def list_persons (st : AppState) (f : PersonFilters) : List PersonRead :=
  appf f.country (fun v p => p.addresses.any (fun addr => addr.country == v))
    (appf f.city (fun v p => p.addresses.any (fun addr => addr.city == v))
      (appf f.birth_date (fun v p => pyStrOptDate p.birth_date == v)
        (appf f.phone (fun v p => p.phone == v)
          (appf f.email (fun v p => p.email == v)
            (appf f.last_name (fun v p => p.last_name == v)
              (appf f.first_name (fun v p => p.first_name == v)
                (appf f.uni (fun v p => p.uni == v)
                  (dvalues st.persons))))))))

/-- `create_club` (main.py): conflict check, then store with fresh
timestamps. -/
def create_club (st : AppState) (club : ClubCreate) (now : Timestamp) :
    Except Err ClubRead × AppState :=
  if dmem club.id st.clubs then (.error .Conflict, st)
  else
    let r : ClubRead := ⟨club.id, club.city, club.name, club.country, now, now⟩
    (.ok r, st.withClubs (dset club.id r st.clubs))

/-- Query parameters of `list_clubs`. -/
structure ClubFilters where
  city : Option String
  name : Option String
  country : Option String
deriving DecidableEq, Repr

/-- `list_clubs` (main.py): sequential optional equality filters. -/
def list_clubs (st : AppState) (f : ClubFilters) : List ClubRead :=
  appf f.country (fun v c => c.country == v)
    (appf f.name (fun v c => c.name == v)
      (appf f.city (fun v c => c.city == v)
        (dvalues st.clubs)))

/-- Python's `player.club_id == club_id` where the left side is
`Optional[UUID]` and the right a `UUID`: `None` compares unequal. -/
def pyEqOptUuid (o : Option UUID) (u : UUID) : Bool :=
  match o with
  | none => false
  | some x => x == u

/-- `get_club_players` (main.py): 404 when the club id is absent, otherwise
the stored players whose `club_id` equals the path id.  Reads only. -/
def get_club_players (st : AppState) (club_id : UUID) :
    Except Err (List PlayerRead) × AppState :=
  if dmem club_id st.clubs then
    (.ok ((dvalues st.players).filter (fun player => pyEqOptUuid player.club_id club_id)), st)
  else (.error .NotFound, st)

/-- `update_club` (main.py): 404 if absent, then dict-based merge and
re-validation. -/
def update_club (st : AppState) (club_id : UUID) (update : ClubUpdate) :
    Except Err ClubRead × AppState :=
  match dget club_id st.clubs with
  | none => (.error .NotFound, st)
  | some stored =>
    match clubParse (dupdate (clubDump stored) (clubUpdateDump update)) with
    | none => (.error .Validation, st)
    | some r => (.ok r, st.withClubs (dset club_id r st.clubs))

/-- `delete_club` (main.py): 404 if absent, otherwise remove the club.  The
player repository is not touched. -/
def delete_club (st : AppState) (club_id : UUID) : Except Err Unit × AppState :=
  if dmem club_id st.clubs then (.ok (), st.withClubs (derase club_id st.clubs))
  else (.error .NotFound, st)

/-- `put_club` (main.py): 404 if absent, otherwise rebuild the Read record
from the payload (body id excluded, path id used) with fresh default
timestamps. -/
def put_club (st : AppState) (club_id : UUID) (club : ClubCreate) (now : Timestamp) :
    Except Err ClubRead × AppState :=
  if dmem club_id st.clubs then
    let r : ClubRead := ⟨club_id, club.city, club.name, club.country, now, now⟩
    (.ok r, st.withClubs (dset club_id r st.clubs))
  else (.error .NotFound, st)

/-- Truthiness test `player.club_id and not player.club_id in clubs` of
`create_player`: a `UUID` is always truthy, `None` is falsy. -/
def clubRefMissing (club_id : Option UUID) (clubs : List (UUID × ClubRead)) : Bool :=
  match club_id with
  | none => false
  | some c => !(dmem c clubs)

/-- `create_player` (main.py): conflict check first, then the referential
check on a non-null `club_id`, then store with fresh timestamps. -/
def create_player (st : AppState) (player : PlayerCreate) (now : Timestamp) :
    Except Err PlayerRead × AppState :=
  if dmem player.id st.players then (.error .Conflict, st)
  else if clubRefMissing player.club_id st.clubs then (.error .InvalidReference, st)
  else
    let r : PlayerRead :=
      ⟨player.id, player.first_name, player.last_name, player.position,
       player.birth_date, player.club_id, now, now⟩
    (.ok r, st.withPlayers (dset player.id r st.players))

/-- `update_player` (main.py): 404 if absent, then dict-based merge and
re-validation. -/
def update_player (st : AppState) (player_id : UUID) (update : PlayerUpdate) :
    Except Err PlayerRead × AppState :=
  match dget player_id st.players with
  | none => (.error .NotFound, st)
  | some stored =>
    match playerParse (dupdate (playerDump stored) (playerUpdateDump update)) with
    | none => (.error .Validation, st)
    | some r => (.ok r, st.withPlayers (dset player_id r st.players))

/-- `put_player` (main.py): 404 if absent, otherwise rebuild the Read record
from the payload (body id excluded, path id used) with fresh default
timestamps.  Faithful to the source, there is no referential check on
`club_id` here. -/
def put_player (st : AppState) (player_id : UUID) (player : PlayerCreate) (now : Timestamp) :
    Except Err PlayerRead × AppState :=
  if dmem player_id st.players then
    let r : PlayerRead :=
      ⟨player_id, player.first_name, player.last_name, player.position,
       player.birth_date, player.club_id, now, now⟩
    (.ok r, st.withPlayers (dset player_id r st.players))
  else (.error .NotFound, st)

/-! Spec-side characterizations and helper lemmas. -/

/-- One optional predicate of the spec's conjunction filter: an absent filter
imposes no constraint, a present one an equality test. -/
def optMatch {α β : Type} (o : Option β) (t : β → α → Bool) (a : α) : Bool :=
  match o with
  | none => true
  | some v => t v a

/-- Spec section 4.3 conjunction for Person: every supplied predicate must
hold; the city and country predicates are existential over the embedded
addresses. -/
def personMatchesSpec (f : PersonFilters) (p : PersonRead) : Bool :=
  optMatch f.uni (fun v p => p.uni == v) p
  && optMatch f.first_name (fun v p => p.first_name == v) p
  && optMatch f.last_name (fun v p => p.last_name == v) p
  && optMatch f.email (fun v p => p.email == v) p
  && optMatch f.phone (fun v p => p.phone == v) p
  && optMatch f.birth_date (fun v p => pyStrOptDate p.birth_date == v) p
  && optMatch f.city (fun v p => p.addresses.any (fun addr => addr.city == v)) p
  && optMatch f.country (fun v p => p.addresses.any (fun addr => addr.country == v)) p

/-- Spec section 4.3 conjunction for Club. -/
def clubMatchesSpec (f : ClubFilters) (c : ClubRead) : Bool :=
  optMatch f.city (fun v c => c.city == v) c
  && optMatch f.name (fun v c => c.name == v) c
  && optMatch f.country (fun v c => c.country == v) c

/-- Person filter request with no predicate supplied. -/
def noPersonFilters : PersonFilters :=
  ⟨none, none, none, none, none, none, none, none⟩

/-- Club filter request with no predicate supplied. -/
def noClubFilters : ClubFilters :=
  ⟨none, none, none⟩

/-- Person filter request supplying only the nested-address city predicate. -/
def cityOnlyFilter (v : String) : PersonFilters :=
  ⟨none, none, none, none, none, none, some v, none⟩

/-- Person filter request supplying only the nested-address country
predicate. -/
def countryOnlyFilter (v : String) : PersonFilters :=
  ⟨none, none, none, none, none, none, none, some v⟩

theorem appf_filter {α β : Type} (o : Option β) (t : β → α → Bool)
    (l : List α) (q : α → Bool) :
    appf o t (l.filter q) = l.filter (fun a => q a && optMatch o t a) := by
  cases o with
  | none => simp [appf, optMatch]
  | some v =>
    simp only [appf, optMatch, List.filter_filter]
    exact List.filter_congr (fun a _ => Bool.and_comm _ _)

theorem list_persons_eq_filter (st : AppState) (f : PersonFilters) :
    list_persons st f = (dvalues st.persons).filter (personMatchesSpec f) := by
  unfold list_persons
  conv_lhs => rw [show dvalues st.persons = (dvalues st.persons).filter (fun _ => true) from
    (List.filter_true _).symm]
  simp only [appf_filter]
  apply List.filter_congr
  intro p _
  simp [personMatchesSpec, Bool.and_assoc]

theorem list_clubs_eq_filter (st : AppState) (f : ClubFilters) :
    list_clubs st f = (dvalues st.clubs).filter (clubMatchesSpec f) := by
  unfold list_clubs
  conv_lhs => rw [show dvalues st.clubs = (dvalues st.clubs).filter (fun _ => true) from
    (List.filter_true _).symm]
  simp only [appf_filter]
  apply List.filter_congr
  intro c _
  simp [clubMatchesSpec, Bool.and_assoc]

/-- C6 : for every repository state, `list` with no predicates returns every
stored record; `list` evaluates the conjunction of the supplied equality
predicates exactly (a predicate matching nothing yields the empty list, never
a failure, since the result is the filtered list); and a Person city (or
country) predicate holds for a person iff at least one element of the
person's embedded address collection has that field equal to the given
value. -/
theorem list_filtering_conjunction_semantics :
    (∀ st : AppState, list_persons st noPersonFilters = dvalues st.persons)
    ∧ (∀ (st : AppState) (f : PersonFilters),
        list_persons st f = (dvalues st.persons).filter (personMatchesSpec f))
    ∧ (∀ st : AppState, list_clubs st noClubFilters = dvalues st.clubs)
    ∧ (∀ (st : AppState) (f : ClubFilters),
        list_clubs st f = (dvalues st.clubs).filter (clubMatchesSpec f))
    ∧ (∀ (p : PersonRead) (v : String),
        personMatchesSpec (cityOnlyFilter v) p = true
          ↔ ∃ a, a ∈ p.addresses ∧ a.city = v)
    ∧ (∀ (p : PersonRead) (v : String),
        personMatchesSpec (countryOnlyFilter v) p = true
          ↔ ∃ a, a ∈ p.addresses ∧ a.country = v) := by
  refine ⟨?_, list_persons_eq_filter, ?_, list_clubs_eq_filter, ?_, ?_⟩
  · intro st
    simp [list_persons, noPersonFilters, appf]
  · intro st
    simp [list_clubs, noClubFilters, appf]
  · intro p v
    simp [personMatchesSpec, cityOnlyFilter, optMatch, List.any_eq_true]
  · intro p v
    simp [personMatchesSpec, countryOnlyFilter, optMatch, List.any_eq_true]

/-- Counterexample to C5 as stated: a sparse Player update that explicitly
sets the required string field `first_name` to null is a legitimate payload
(`Optional[str]` with set-tracking), but the merged dictionary then fails
re-validation — `playerParse` returns `none` and the patch endpoint fails
with a validation error, storing nothing, instead of producing a record with
the set field overwritten. -/
theorem patch_merge_set_null_fails :
    playerParse (dupdate (playerDump ⟨5, "fi", "la", "po", none, none, 0, 0⟩)
        (playerUpdateDump ⟨some none, none, none, none, none⟩)) = none
    ∧ update_player ⟨[], [], [], [(5, ⟨5, "fi", "la", "po", none, none, 0, 0⟩)]⟩ 5
        ⟨some none, none, none, none, none⟩
      = (.error .Validation,
         ⟨[], [], [], [(5, ⟨5, "fi", "la", "po", none, none, 0, 0⟩)]⟩) := ⟨rfl, rfl⟩

set_option maxHeartbeats 4000000 in
/-- C5 (amended) : for every stored record and every sparse update payload
whose set fields all carry values admissible for the corresponding Read
fields — for Player, no required string field explicitly set to null — the
dict-based merge (dump, `dict.update` with only the explicitly set fields,
re-validate) produces a record equal to the original except that exactly the
set fields are overwritten with the supplied values; all omitted fields —
including the identifier and both timestamps, and regardless of whether an
omitted field's value coincides with any default — are unchanged.  A payload
that explicitly sets a required string field to null instead makes the whole
patch fail re-validation, storing nothing. -/
theorem patch_merge_overwrites_exactly_set_fields :
    (∀ (r : PlayerRead) (u : PlayerUpdate),
      u.first_name ≠ some none → u.last_name ≠ some none → u.position ≠ some none →
      playerParse (dupdate (playerDump r) (playerUpdateDump u))
        = some ⟨r.id,
            (match u.first_name with | some (some v) => v | _ => r.first_name),
            (match u.last_name with | some (some v) => v | _ => r.last_name),
            (match u.position with | some (some v) => v | _ => r.position),
            u.birth_date.getD r.birth_date,
            u.club_id.getD r.club_id, r.created_at, r.updated_at⟩)
    ∧ (∀ (a : AddressRead) (u : AddressUpdate),
      addressParse (dupdate (addressDump a) (addressUpdateDump u))
        = some ⟨a.id, u.street.getD a.street, u.city.getD a.city,
                u.state.getD a.state, u.postal_code.getD a.postal_code,
                u.country.getD a.country, a.created_at, a.updated_at⟩)
    ∧ (∀ (st : AppState) (player_id : UUID) (r : PlayerRead) (u : PlayerUpdate),
      dget player_id st.players = some r → u.first_name = some none →
      update_player st player_id u = (.error .Validation, st)) := by
  refine ⟨?_, ?_, ?_⟩
  · intro r u hfn hln hpos
    rcases u with ⟨fn, ln, pos, bd, cid⟩
    rcases r with ⟨rid, rfn, rln, rpos, rbd, rcid, rca, rua⟩
    rcases fn with _ | (_ | fnv) <;> rcases ln with _ | (_ | lnv) <;>
      rcases pos with _ | (_ | posv) <;>
      first
        | exact absurd rfl hfn
        | exact absurd rfl hln
        | exact absurd rfl hpos
        | (rcases bd with _ | (_ | bdv) <;> rcases cid with _ | (_ | cidv) <;>
            cases rbd <;> cases rcid <;> rfl)
  · intro a u
    rcases u with ⟨street, city, sta, pc, country⟩
    cases street <;> cases city <;> cases sta <;> cases pc <;> cases country <;> rfl
  · intro st pid r u hr hfn
    rcases u with ⟨fn, ln, pos, bd, cid⟩
    cases hfn
    simp only [update_player, hr]
    rcases ln with _ | (_ | lnv) <;> rcases pos with _ | (_ | posv) <;>
      rcases bd with _ | (_ | bdv) <;> rcases cid with _ | (_ | cidv) <;> rfl

/-- Witness for the amended C5: a fully set, admissible Player update and a
fully set Address update applied to concrete stored records, and a set-null
update hitting the validation failure. -/
theorem patch_merge_overwrites_exactly_set_fields_witness :
    playerParse (dupdate (playerDump ⟨5, "fi", "la", "po", some "1987-06-24", some 3, 0, 0⟩)
        (playerUpdateDump ⟨some (some "f2"), some (some "l2"), some (some "p2"),
                           some none, some (some 4)⟩))
      = some ⟨5, "f2", "l2", "p2", none, some 4, 0, 0⟩
    ∧ addressParse (dupdate (addressDump ⟨6, "st", "ci", "sa", "pc", "co", 0, 0⟩)
        (addressUpdateDump ⟨some "st2", none, none, none, some "co2"⟩))
      = some ⟨6, "st2", "ci", "sa", "pc", "co2", 0, 0⟩
    ∧ update_player ⟨[], [], [], [(9, ⟨9, "fi", "la", "po", none, none, 0, 0⟩)]⟩ 9
        ⟨some none, none, none, none, none⟩
      = (.error .Validation, ⟨[], [], [], [(9, ⟨9, "fi", "la", "po", none, none, 0, 0⟩)]⟩) :=
  ⟨patch_merge_overwrites_exactly_set_fields.1
      ⟨5, "fi", "la", "po", some "1987-06-24", some 3, 0, 0⟩
      ⟨some (some "f2"), some (some "l2"), some (some "p2"), some none, some (some 4)⟩
      (by decide) (by decide) (by decide),
   patch_merge_overwrites_exactly_set_fields.2.1
      ⟨6, "st", "ci", "sa", "pc", "co", 0, 0⟩ ⟨some "st2", none, none, none, some "co2"⟩,
   patch_merge_overwrites_exactly_set_fields.2.2
      ⟨[], [], [], [(9, ⟨9, "fi", "la", "po", none, none, 0, 0⟩)]⟩ 9
      ⟨9, "fi", "la", "po", none, none, 0, 0⟩
      ⟨some none, none, none, none, none⟩ rfl rfl⟩

theorem dset_dget_self {κ α : Type} [DecidableEq κ] (k : κ) (v : α)
    (l : List (κ × α)) (h : dget k l = some v) : dset k v l = l := by
  induction l with
  | nil => simp [dget] at h
  | cons kv rest ih =>
    by_cases hk : kv.1 = k
    · rw [dget, if_pos hk] at h
      injection h with h
      rw [dset, if_pos hk, ← hk, ← h]
    · rw [dget, if_neg hk] at h
      rw [dset, if_neg hk, ih h]

theorem clubParse_dump (c : ClubRead) : clubParse (clubDump c) = some c := rfl

theorem playerParse_dump (p : PlayerRead) : playerParse (playerDump p) = some p := by
  rcases p with ⟨i, fn, ln, pos, bd, cid, ca, ua⟩
  cases bd <;> cases cid <;> rfl

theorem pyEqOptUuid_beq (o : Option UUID) (u : UUID) :
    pyEqOptUuid o u = (o == some u) := by
  cases o <;> rfl

/-- C9 : the club-players listing fails with `NotFound` when the club
identifier is absent from the Club repository, and otherwise returns exactly
the stored Players whose `club_id` equals that identifier; in both cases the
state is returned unchanged (no repository is mutated). -/
theorem get_club_players_semantics :
    ∀ (st : AppState) (club_id : UUID),
      get_club_players st club_id
        = ((if dmem club_id st.clubs
            then Except.ok ((dvalues st.players).filter (fun p => p.club_id == some club_id))
            else Except.error Err.NotFound), st) := by
  intro st cid
  cases h : dmem cid st.clubs <;> simp [get_club_players, h, pyEqOptUuid_beq]

/-- C8 : deleting an existing Club succeeds even when some stored Player
references it via `club_id`, and the delete touches only the Club repository:
the Player (and every other) repository is left with exactly the same
records. -/
theorem delete_club_no_cascade :
    ∀ (st : AppState) (club_id : UUID),
      dmem club_id st.clubs = true →
      (∃ q, q ∈ dvalues st.players ∧ q.club_id = some club_id) →
      delete_club st club_id = (.ok (), st.withClubs (derase club_id st.clubs))
      ∧ ((delete_club st club_id).2).players = st.players
      ∧ ((delete_club st club_id).2).persons = st.persons
      ∧ ((delete_club st club_id).2).addresses = st.addresses := by
  intro st cid h _
  simp [delete_club, h, AppState.withClubs]

def c8State : AppState :=
  ⟨[], [], [(3, ⟨3, "ci", "na", "co", 0, 0⟩)],
   [(9, ⟨9, "fi", "la", "po", none, some 3, 0, 0⟩)]⟩

/-- Witness for C8: applies `delete_club_no_cascade` to a state holding one
club and one player that references it. -/
theorem delete_club_no_cascade_witness :
    delete_club c8State 3 = (.ok (), c8State.withClubs (derase 3 c8State.clubs))
    ∧ ((delete_club c8State 3).2).players = c8State.players
    ∧ ((delete_club c8State 3).2).persons = c8State.persons
    ∧ ((delete_club c8State 3).2).addresses = c8State.addresses :=
  delete_club_no_cascade c8State 3 rfl
    ⟨⟨9, "fi", "la", "po", none, some 3, 0, 0⟩, by simp [c8State, dvalues], rfl⟩

/-- C10 : patching an existing record with an empty sparse update (no field
set) returns, and stores back, a record field-for-field equal to the previous
stored record — id, `created_at` and `updated_at` included — and leaves the
whole repository state unchanged. -/
theorem empty_patch_is_identity :
    ∀ (st : AppState) (cid pid : UUID) (c : ClubRead) (p : PlayerRead),
      dget cid st.clubs = some c → dget pid st.players = some p →
      update_club st cid ⟨none, none, none⟩ = (.ok c, st)
      ∧ update_player st pid ⟨none, none, none, none, none⟩ = (.ok p, st) := by
  intro st cid pid c p hc hp
  constructor
  · simp [update_club, hc, clubUpdateDump, dumpField, dupdate, clubParse_dump,
      dset_dget_self cid c st.clubs hc, AppState.withClubs]
  · simp [update_player, hp, playerUpdateDump, dumpField, dupdate, playerParse_dump,
      dset_dget_self pid p st.players hp, AppState.withPlayers]

def c10State : AppState :=
  ⟨[], [], [(1, ⟨1, "ci", "na", "co", 0, 0⟩)],
   [(2, ⟨2, "fi", "la", "po", none, none, 0, 0⟩)]⟩

/-- Witness for C10: applies `empty_patch_is_identity` to a state holding one
club and one player. -/
theorem empty_patch_is_identity_witness :
    update_club c10State 1 ⟨none, none, none⟩ = (.ok ⟨1, "ci", "na", "co", 0, 0⟩, c10State)
    ∧ update_player c10State 2 ⟨none, none, none, none, none⟩
        = (.ok ⟨2, "fi", "la", "po", none, none, 0, 0⟩, c10State) :=
  empty_patch_is_identity c10State 1 2 ⟨1, "ci", "na", "co", 0, 0⟩
    ⟨2, "fi", "la", "po", none, none, 0, 0⟩ rfl rfl

def c2State : AppState :=
  ⟨[], [], [], [(5, ⟨5, "fi", "la", "po", none, none, 0, 0⟩)]⟩

/-- Counterexample to C2 as stated: replacing an existing Player whose payload
carries the non-null `club_id` 77, while the Club repository is empty,
succeeds and installs the dangling reference — `put_player` performs no
referential check, so the replace does not fail with `InvalidReference`. -/
theorem put_player_dangling_reference_succeeds :
    put_player c2State 5 ⟨9, "f2", "l2", "p2", none, some 77⟩ 10
      = (.ok ⟨5, "f2", "l2", "p2", none, some 77, 10, 10⟩,
         ⟨[], [], [], [(5, ⟨5, "f2", "l2", "p2", none, some 77, 10, 10⟩)]⟩)
    ∧ dmem 77 c2State.clubs = false := ⟨rfl, rfl⟩

/-- C2 (amended) : the referential check runs only on Player create: creating
a Player whose payload id is fresh and whose `club_id` is non-null and absent
from the Club repository fails with `InvalidReference` leaving the state
unchanged; creating with a null `club_id` skips the check and succeeds; and
Player replace performs no referential check at all — replacing an existing
Player succeeds whatever its `club_id`, with fresh timestamps and the
path-given identifier. -/
theorem player_reference_check_on_create_only :
    (∀ (st : AppState) (p : PlayerCreate) (c : UUID) (now : Timestamp),
      p.club_id = some c → dmem c st.clubs = false → dmem p.id st.players = false →
      create_player st p now = (.error .InvalidReference, st))
    ∧ (∀ (st : AppState) (p : PlayerCreate) (now : Timestamp),
      p.club_id = none → dmem p.id st.players = false →
      create_player st p now
        = (.ok ⟨p.id, p.first_name, p.last_name, p.position, p.birth_date,
                p.club_id, now, now⟩,
           st.withPlayers (dset p.id
             ⟨p.id, p.first_name, p.last_name, p.position, p.birth_date,
              p.club_id, now, now⟩ st.players)))
    ∧ (∀ (st : AppState) (player_id : UUID) (p : PlayerCreate) (now : Timestamp),
      dmem player_id st.players = true →
      put_player st player_id p now
        = (.ok ⟨player_id, p.first_name, p.last_name, p.position, p.birth_date,
                p.club_id, now, now⟩,
           st.withPlayers (dset player_id
             ⟨player_id, p.first_name, p.last_name, p.position, p.birth_date,
              p.club_id, now, now⟩ st.players))) := by
  refine ⟨?_, ?_, ?_⟩
  · intro st p c now hc hdangling hfresh
    simp [create_player, hfresh, clubRefMissing, hc, hdangling]
  · intro st p now hnone hfresh
    simp [create_player, hfresh, clubRefMissing, hnone]
  · intro st pid p now hmem
    simp [put_player, hmem]

/-- Witness for the amended C2: instantiates all three conjuncts on concrete
states. -/
theorem player_reference_check_on_create_only_witness :
    create_player ⟨[], [], [], []⟩ ⟨5, "fi", "la", "po", none, some 77⟩ 3
      = (.error .InvalidReference, ⟨[], [], [], []⟩)
    ∧ create_player ⟨[], [], [], []⟩ ⟨5, "fi", "la", "po", none, none⟩ 3
      = (.ok ⟨5, "fi", "la", "po", none, none, 3, 3⟩,
         AppState.withPlayers ⟨[], [], [], []⟩
           (dset 5 ⟨5, "fi", "la", "po", none, none, 3, 3⟩ []))
    ∧ put_player c2State 5 ⟨9, "f2", "l2", "p2", none, some 77⟩ 10
      = (.ok ⟨5, "f2", "l2", "p2", none, some 77, 10, 10⟩,
         c2State.withPlayers
           (dset 5 ⟨5, "f2", "l2", "p2", none, some 77, 10, 10⟩ c2State.players)) :=
  ⟨player_reference_check_on_create_only.1 ⟨[], [], [], []⟩
      ⟨5, "fi", "la", "po", none, some 77⟩ 77 3 rfl rfl rfl,
   player_reference_check_on_create_only.2.1 ⟨[], [], [], []⟩
      ⟨5, "fi", "la", "po", none, none⟩ 3 rfl rfl,
   player_reference_check_on_create_only.2.2 c2State 5
      ⟨9, "f2", "l2", "p2", none, some 77⟩ 10 rfl⟩

def c7State : AppState :=
  ⟨[], [], [], [(5, ⟨5, "fi", "la", "po", none, none, 0, 0⟩)]⟩

/-- Counterexample to C7 as stated: a creation payload whose non-null
`club_id` 77 is absent from the (empty) Club repository, but whose id 5 is
already taken, fails with `Conflict`, not `InvalidReference` — the conflict
check precedes the referential check in `create_player`. -/
theorem create_player_conflict_precedes_reference :
    create_player c7State ⟨5, "g", "m", "q", none, some 77⟩ 3
      = (.error .Conflict, c7State)
    ∧ (⟨5, "g", "m", "q", none, some 77⟩ : PlayerCreate).club_id = some 77
    ∧ dmem 77 c7State.clubs = false := ⟨rfl, rfl, rfl⟩

/-- C7 (amended) : creating a Player whose non-null `club_id` does not exist
in the Club repository always fails and leaves the whole state (hence the
Player repository: same key set and records) unchanged; the failure is
`InvalidReference` when the payload's identifier is not already present, and
`Conflict` when it is. -/
theorem create_player_dangling_reference_outcome :
    ∀ (st : AppState) (p : PlayerCreate) (c : UUID) (now : Timestamp),
      p.club_id = some c → dmem c st.clubs = false →
      (create_player st p now).2 = st
      ∧ (create_player st p now).1
          = .error (if dmem p.id st.players then Err.Conflict else Err.InvalidReference) := by
  intro st p c now hc hd
  cases hm : dmem p.id st.players <;>
    simp [create_player, hm, clubRefMissing, hc, hd]

/-- Witness for the amended C7: a dangling-reference creation on an empty
state. -/
theorem create_player_dangling_reference_outcome_witness :
    (create_player ⟨[], [], [], []⟩ ⟨5, "fi", "la", "po", none, some 77⟩ 3).2
      = ⟨[], [], [], []⟩
    ∧ (create_player ⟨[], [], [], []⟩ ⟨5, "fi", "la", "po", none, some 77⟩ 3).1
      = .error (if dmem (⟨5, "fi", "la", "po", none, some 77⟩ : PlayerCreate).id
                    (⟨[], [], [], []⟩ : AppState).players
                then Err.Conflict else Err.InvalidReference) :=
  create_player_dangling_reference_outcome ⟨[], [], [], []⟩
    ⟨5, "fi", "la", "po", none, some 77⟩ 77 3 rfl rfl

def c1State : AppState :=
  ⟨[(7, ⟨7, "u0", "f0", "l0", "e0", "p0", none, [], 0, 0⟩)], [], [], []⟩

/-- C1 (code behavior at the failing input): `create_person` performs no
conflict check — a creation payload carrying identifier 7, which is already
present in the Person repository, succeeds and silently overwrites the stored
record instead of failing with `Conflict`. -/
theorem create_person_overwrites_existing_id :
    create_person c1State ⟨7, "u1", "f1", "l1", "e1", "p1", none, []⟩ 5
      = (.ok ⟨7, "u1", "f1", "l1", "e1", "p1", none, [], 5, 5⟩,
         ⟨[(7, ⟨7, "u1", "f1", "l1", "e1", "p1", none, [], 5, 5⟩)], [], [], []⟩)
    ∧ dmem 7 c1State.persons = true := ⟨rfl, rfl⟩

def c3State : AppState :=
  ⟨[], [], [(1, ⟨1, "ci0", "n0", "co0", 0, 0⟩)], []⟩

/-- C3 (code behavior at the failing input): replacing club 1 — stored with
`created_at = 0` — at time 5 rebuilds the record with a fresh `created_at`
of 5: `put_club` does not preserve the previous record's `created_at`.  The
identifier is the path-given 1 (not the body's 9) and `updated_at` is
refreshed, as the claim says. -/
theorem put_club_regenerates_created_at :
    put_club c3State 1 ⟨9, "ci1", "n1", "co1"⟩ 5
      = (.ok ⟨1, "ci1", "n1", "co1", 5, 5⟩,
         ⟨[], [], [(1, ⟨1, "ci1", "n1", "co1", 5, 5⟩)], []⟩)
    ∧ (⟨1, "ci1", "n1", "co1", 5, 5⟩ : ClubRead).created_at
        ≠ (⟨1, "ci0", "n0", "co0", 0, 0⟩ : ClubRead).created_at := ⟨rfl, by decide⟩

def c4State : AppState :=
  ⟨[], [], [(1, ⟨1, "ci0", "n0", "co0", 0, 0⟩)], []⟩

/-- C4 (code behavior at the failing input): patching club 1 with a sparse
update that sets only `city` succeeds and changes `city`, but the returned
and stored record's `updated_at` is exactly the previous value 0 — the
dict-based merge never touches `updated_at` (no handler clock is even
consulted), so it is not refreshed. -/
theorem update_club_leaves_updated_at_unchanged :
    update_club c4State 1 ⟨some (some "ci1"), none, none⟩
      = (.ok ⟨1, "ci1", "n0", "co0", 0, 0⟩,
         ⟨[], [], [(1, ⟨1, "ci1", "n0", "co0", 0, 0⟩)], []⟩)
    ∧ (⟨1, "ci1", "n0", "co0", 0, 0⟩ : ClubRead).updated_at
        = (⟨1, "ci0", "n0", "co0", 0, 0⟩ : ClubRead).updated_at := ⟨rfl, rfl⟩
